import Mathlib

/-!
# Screen capture session: a shallow embedding of `screenshot.go` and `win32.go`

The Go package wraps a handful of native calls (`win32.go`) and builds a capture
session on top of them (`screenshot.go`).  The native calls are the environment:
every theorem quantifies over the raw outcome (`r0`, last error, data written
through pointer arguments) of each call the code issues, and every native call is
recorded, with its arguments and `r0`, in a trace.

Machine integers are `Int`/`Nat` with explicit wrap-around: `int32` arithmetic goes
through `wrap32`, `uintptr` is a 64-bit word, `int` is 64 bits wide.
-/

namespace Screenshot

/-! ## Machine integers -/

/-- Two's-complement wrap of an integer into the `int32` range. -/
def wrap32 (x : Int) : Int := (x + 2147483648) % 4294967296 - 2147483648

/-- Go conversion `uintptr(x)` of a signed integer (sign extension to 64 bits). -/
def toUintptr (x : Int) : Nat := (x % 18446744073709551616).toNat

/-- Go conversion `int(u)` of a `uintptr`. -/
def uintptrToInt (u : Nat) : Int :=
  if u < 9223372036854775808 then (u : Int) else (u : Int) - 18446744073709551616

/-! ## Outcome of a piece of Go code that may panic -/

/-- Result of running a loop or a block: a value, a run-time panic, or the model's
fuel running out (which the theorems below exclude). -/
inductive Run (α : Type) where
  | done (a : α)
  | panic
  | outOfFuel
  deriving DecidableEq, Repr

/-! ## `win32.go`: native calls and their wrappers -/

/-- A Go `error`: the `syscall.Errno` that `Call` hands back, or a `fmt.Errorf` text. -/
inductive GoError where
  | errno (e : Nat)
  | msg (s : String)
  deriving DecidableEq, Repr

/-- What `entryX.Call(...)` returns: the first result register and the last error
(`Call` always returns a non-nil `syscall.Errno` as its third result). -/
structure Raw where
  r0 : Nat
  err : Nat
  deriving DecidableEq, Repr

/-- The native entry points with the scalar arguments they are called with; pointer
arguments to Go memory are left out. -/
inductive Call where
  | GetDC (hwnd : Nat)
  | ReleaseDC (hwnd hdc : Nat)
  | EnumWindows
  | GetWindowText (hwnd : Nat)
  | GetClientRect (hwnd : Nat)
  | IsWindowVisible (hwnd : Nat)
  | GlobalFree (hMem : Nat)
  | GlobalLock (hMem : Nat)
  | GlobalAlloc (flags size : Nat)
  | GlobalUnlock (hMem : Nat)
  | GetLastError
  | BitBlt (hdc x y width height hdcsrc x1 y1 rop : Nat)
  | DeleteDC (hdc : Nat)
  | GetDIBits (hDC hBitmap start cLines lpvBits usage : Nat)
  | GetObject (handle c : Nat)
  | SelectObject (hdc hgdiobj : Nat)
  | DeleteObject (hgdiobj : Nat)
  | GetDeviceCaps (hdc index : Nat)
  | CreateCompatibleDC (hdc : Nat)
  | CreateCompatibleBitmap (hdc width height : Nat)
  deriving DecidableEq, Repr

/-- One completed native call: what was called and the `r0` it returned. -/
structure Event where
  call : Call
  r0 : Nat
  deriving DecidableEq, Repr

/-- The native calls a piece of code has completed so far, oldest first. -/
abbrev Trace := List Event

/-- Record a completed native call. -/
def native (c : Call) (raw : Raw) (tr : Trace) : Trace := tr ++ [⟨c, raw.r0⟩]

def cBI_RGB : Nat := 0
def cDIB_RGB_COLORS : Nat := 0
def cHORZRES : Nat := 8
def cVERTRES : Nat := 10
def cSRCCPY : Nat := 0x00CC0020
def cGHND : Nat := 0x42
def cNO_ERROR : Nat := 0

structure bitmapStruct where
  BmType : Int := 0
  BmWidth : Int := 0
  BmHeight : Int := 0
  BmWidthBytes : Int := 0
  BmPlanes : Nat := 0
  BmBitsPixel : Nat := 0
  BmBits : Nat := 0
  deriving DecidableEq, Repr

structure bitmapInfoHeaderStruct where
  BiSize : Nat := 0
  BiWidth : Int := 0
  BiHeight : Int := 0
  BiPlanes : Nat := 0
  BiBitCount : Nat := 0
  BiCompression : Nat := 0
  deriving DecidableEq, Repr

structure rectStruct where
  Left : Int := 0
  Top : Int := 0
  Right : Int := 0
  Bottom : Int := 0
  deriving DecidableEq, Repr

def funcGetDC (hwnd : Nat) (raw : Raw) (tr : Trace) : (Nat × Option GoError) × Trace :=
  let tr := native (Call.GetDC hwnd) raw tr
  if raw.r0 = 0 then ((0, some (GoError.errno raw.err)), tr) else ((raw.r0, none), tr)

/-- The wrapper of GetClientRect; `rect` is what the native call left in the
rectangle it was given. -/
def funcGetClientRect (hwnd : Nat) (raw : Raw) (rect : rectStruct) (tr : Trace) :
    (Option rectStruct × Option GoError) × Trace :=
  let tr := native (Call.GetClientRect hwnd) raw tr
  if raw.r0 = 0 then ((none, some (GoError.errno raw.err)), tr) else ((some rect, none), tr)

/-- The wrapper of GetWindowTextW; `decoded` is `syscall.UTF16ToString` of the
256-unit buffer the native call filled. -/
def funcGetWindowText (hwnd : Nat) (raw : Raw) (decoded : String) (tr : Trace) :
    (String × Option GoError) × Trace :=
  let tr := native (Call.GetWindowText hwnd) raw tr
  if raw.r0 = 0 then (("", some (GoError.errno raw.err)), tr) else ((decoded, none), tr)

def funcIsWindowVisible (hwnd : Nat) (raw : Raw) (tr : Trace) :
    (Bool × Option GoError) × Trace :=
  let tr := native (Call.IsWindowVisible hwnd) raw tr
  ((decide (raw.r0 = 1), none), tr)

def funcReleaseDC (hwnd hdc : Nat) (raw : Raw) (tr : Trace) : Option GoError × Trace :=
  let tr := native (Call.ReleaseDC hwnd hdc) raw tr
  if raw.r0 = 0 ∨ raw.r0 ≠ 1 then (some (GoError.errno raw.err), tr) else (none, tr)

def funcGlobalAlloc (flags size : Nat) (raw : Raw) (tr : Trace) :
    (Nat × Option GoError) × Trace :=
  let tr := native (Call.GlobalAlloc flags size) raw tr
  if raw.r0 = 0 then ((0, some (GoError.errno raw.err)), tr) else ((raw.r0, none), tr)

def funcGlobalFree (hMem : Nat) (raw : Raw) (tr : Trace) : (Nat × Option GoError) × Trace :=
  let tr := native (Call.GlobalFree hMem) raw tr
  if raw.r0 = 0 then ((0, none), tr) else ((raw.r0, some (GoError.errno raw.err)), tr)

def funcGlobalLock (hMem : Nat) (raw : Raw) (tr : Trace) : (Nat × Option GoError) × Trace :=
  let tr := native (Call.GlobalLock hMem) raw tr
  if raw.r0 = 0 then ((0, some (GoError.errno raw.err)), tr) else ((raw.r0, none), tr)

def funcGetLastError (raw : Raw) (tr : Trace) : (Nat × Option GoError) × Trace :=
  let tr := native Call.GetLastError raw tr
  ((raw.r0, some (GoError.errno raw.err)), tr)

def funcGlobalUnlock (hMem : Nat) (raw lastError : Raw) (tr : Trace) : Option GoError × Trace :=
  let tr := native (Call.GlobalUnlock hMem) raw tr
  let ((r1, _), tr) := funcGetLastError lastError tr
  if raw.r0 = 0 ∧ r1 ≠ cNO_ERROR then (some (GoError.errno raw.err), tr) else (none, tr)

def funcCreateCompatibleDC (hdc : Nat) (raw : Raw) (tr : Trace) :
    (Nat × Option GoError) × Trace :=
  let tr := native (Call.CreateCompatibleDC hdc) raw tr
  if raw.r0 = 0 then ((0, some (GoError.errno raw.err)), tr) else ((raw.r0, none), tr)

def funcCreateCompatibleBitmap (hdc width height : Nat) (raw : Raw) (tr : Trace) :
    (Nat × Option GoError) × Trace :=
  let tr := native (Call.CreateCompatibleBitmap hdc width height) raw tr
  if raw.r0 = 0 then ((0, some (GoError.errno raw.err)), tr) else ((raw.r0, none), tr)

def funcGetDeviceCaps (hdc index : Nat) (raw : Raw) (tr : Trace) :
    (Nat × Option GoError) × Trace :=
  let tr := native (Call.GetDeviceCaps hdc index) raw tr
  if raw.r0 = 0 then ((0, some (GoError.errno raw.err)), tr) else ((raw.r0, none), tr)

def funcGetObject (handle c : Nat) (raw : Raw) (tr : Trace) : (Nat × Option GoError) × Trace :=
  let tr := native (Call.GetObject handle c) raw tr
  if raw.r0 = 0 then ((0, some (GoError.errno raw.err)), tr) else ((raw.r0, none), tr)

def funcSelectObject (hdc hgdiobj : Nat) (raw : Raw) (tr : Trace) :
    (Nat × Option GoError) × Trace :=
  let tr := native (Call.SelectObject hdc hgdiobj) raw tr
  if raw.r0 = 0 then ((0, some (GoError.errno raw.err)), tr) else ((raw.r0, none), tr)

def funcDeleteObject (hgdiobj : Nat) (raw : Raw) (tr : Trace) : Option GoError × Trace :=
  let tr := native (Call.DeleteObject hgdiobj) raw tr
  if raw.r0 = 0 then (some (GoError.errno raw.err), tr) else (none, tr)

def funcGetDiBits (hDC hBitmap start cLines lpvBits usage : Nat) (raw : Raw) (tr : Trace) :
    (Nat × Option GoError) × Trace :=
  let tr := native (Call.GetDIBits hDC hBitmap start cLines lpvBits usage) raw tr
  if raw.r0 = 0 then ((0, some (GoError.errno raw.err)), tr) else ((raw.r0, none), tr)

def funcBitBlt (hdc x y width height hdcsrc x1 y1 rop : Nat) (raw : Raw) (tr : Trace) :
    Option GoError × Trace :=
  let tr := native (Call.BitBlt hdc x y width height hdcsrc x1 y1 rop) raw tr
  if raw.r0 = 0 then (some (GoError.errno raw.err), tr) else (none, tr)

def funcDeleteDC (hdc : Nat) (raw : Raw) (tr : Trace) : Option GoError × Trace :=
  let tr := native (Call.DeleteDC hdc) raw tr
  if raw.r0 = 0 then (some (GoError.errno raw.err), tr) else (none, tr)

/-! ## Window enumeration -/

/-- A top-level surface as the enumeration callbacks see it: its handle and the
outcomes of the two native queries the callbacks make on it. -/
structure Surface where
  hwnd : Nat
  text : Raw
  decoded : String
  visible : Raw
  deriving DecidableEq, Repr

/-- Outcome of one EnumWindows call: the surfaces it visits, in order, for as long as
the callback returns non-zero, and the `r0` it returns when the callback never
returned zero. -/
structure EnumOutcome where
  surfaces : List Surface
  raw : Raw
  deriving DecidableEq, Repr

/-- The visiting loop of EnumWindows: call back on each surface, stop at the first
callback that returns zero.  The flag tells whether the callback stopped it. -/
def enumWindows {σ : Type} (cb : Surface → σ → Nat × σ) : List Surface → σ → Bool × σ
  | [], s => (false, s)
  | w :: ws, s =>
    match cb w s with
    | (r, s1) => if r = 0 then (true, s1) else enumWindows cb ws s1

/-- `entryEnumWindows.Call(callback, p)`: EnumWindows returns zero when the callback
returned zero. -/
def callEnumWindows {σ : Type} (cb : Surface → σ × Trace → Nat × (σ × Trace))
    (e : EnumOutcome) (st : σ × Trace) : Nat × (σ × Trace) :=
  match enumWindows cb e.surfaces st with
  | (stopped, (s, tr)) =>
    let r0 := if stopped then 0 else e.raw.r0
    (r0, (s, tr ++ [⟨Call.EnumWindows, r0⟩]))

structure findWindowCallbackData where
  PWndHandle : Nat := 0
  PWndTitle : String := ""
  deriving DecidableEq, Repr

/-- The callback of `funcFindWindow` (win32.go lines 139-150). -/
def findWindowCallback (s : Surface) (st : findWindowCallbackData × Trace) :
    Nat × (findWindowCallbackData × Trace) :=
  match funcGetWindowText s.hwnd s.text s.decoded st.2 with
  | ((title, _), tr) =>
    if title = "" then (1, (st.1, tr))
    else if title = st.1.PWndTitle then (0, ({ st.1 with PWndHandle := s.hwnd }, tr))
    else (1, (st.1, tr))

def funcFindWindow (windowName : String) (e : EnumOutcome) (tr : Trace) :
    (Nat × Option GoError) × Trace :=
  match callEnumWindows findWindowCallback e ({ PWndTitle := windowName }, tr) with
  | (r0, (f, tr)) =>
    if r0 = 0 ∧ f.PWndHandle = 0 then ((0, some (GoError.msg "entryEnumWindows")), tr)
    else if f.PWndHandle = 0 then
      ((0, some (GoError.msg ("window with title " ++ windowName ++ " not found"))), tr)
    else ((f.PWndHandle, none), tr)

structure WindowStruct where
  HWND : Nat
  Title : String
  deriving DecidableEq, Repr

/-- The callback of `EnumWindowList` (screenshot.go lines 205-216); `len(title) != 0`
is `title ≠ ""`. -/
def enumWindowCallback (s : Surface) (st : List WindowStruct × Trace) :
    Nat × (List WindowStruct × Trace) :=
  match funcGetWindowText s.hwnd s.text s.decoded st.2 with
  | ((title, err), tr) =>
    if err ≠ none then (1, (st.1, tr))
    else if title ≠ "" then
      match funcIsWindowVisible s.hwnd s.visible tr with
      | ((b, _), tr) =>
        if b then (1, (st.1 ++ [⟨s.hwnd, title⟩], tr)) else (1, (st.1, tr))
    else (1, (st.1, tr))

def EnumWindowList (e : EnumOutcome) (tr : Trace) : List WindowStruct × Trace :=
  (callEnumWindows enumWindowCallback e ([], tr)).2

/-! ## `MakeScreenshot`, lines 139 and 158-170: raw size and pixel conversion -/

/-- Line 139: `int(((bmpScreen.BmWidth*int32(bmpInfo.BiBitCount) + 31) / 32) * 4 * bmpScreen.BmHeight)`,
every operation in `int32`; `/` truncates toward zero. -/
def dwBmpSize (BmWidth : Int) (BiBitCount : Nat) (BmHeight : Int) : Int :=
  wrap32 (wrap32 (Int.tdiv (wrap32 (wrap32 (BmWidth * (BiBitCount : Int)) + 31)) 32 * 4) * BmHeight)

/-- Lines 168-170: `for pixIdx := 0; pixIdx < int(dwBmpSize); pixIdx += 4 { ... }`.
An index out of range is a panic. -/
def convertLoop : Nat → Int → Nat → List Nat → List Nat → Run (List Nat)
  | 0, _, _, _, _ => Run.outOfFuel
  | fuel + 1, n, pixIdx, imageData, captData =>
    if (pixIdx : Int) < n then
      match captData[pixIdx + 2]?, captData[pixIdx + 1]?, captData[pixIdx]? with
      | some r, some g, some b =>
        if pixIdx + 3 < imageData.length then
          convertLoop fuel n (pixIdx + 4)
            ((((imageData.set pixIdx r).set (pixIdx + 1) g).set (pixIdx + 2) b).set (pixIdx + 3) 255)
            captData
        else Run.panic
      | _, _, _ => Run.panic
    else Run.done imageData

/-- Lines 164-170: resize the persistent buffer when its length differs from the
raw size (`make` panics on a negative length), then run the conversion loop. -/
def convert (imageData captData : List Nat) (n : Int) : Run (List Nat) :=
  if (imageData.length : Int) ≠ n then
    if n < 0 then Run.panic
    else convertLoop (n.toNat + 1) n 0 (List.replicate n.toNat 0) captData
  else convertLoop (n.toNat + 1) n 0 imageData captData

/-! ## `screenshot.go`: the capture session -/

/-- The session.  `imageData` is the persistent buffer as a sequence of bytes (a nil
and an empty slice are the same to this code, which only takes `len` and indexes). -/
structure ScreenshotState where
  hWnd : Nat := 0
  hDC : Nat := 0
  hMemoryDC : Nat := 0
  width : Nat := 0
  height : Nat := 0
  hBitmap : Nat := 0
  hOldBitmap : Nat := 0
  imageData : List Nat := []
  deriving DecidableEq, Repr

def ScreenshotState.Width (ss : ScreenshotState) : Int := uintptrToInt ss.width

def ScreenshotState.Height (ss : ScreenshotState) : Int := uintptrToInt ss.height

/-- Outcomes of the three release calls `Destroy` may issue. -/
structure DestroyOutcomes where
  deleteObject : Raw
  deleteDC : Raw
  releaseDC : Raw
  deriving DecidableEq, Repr

/-- Lines 180-194. -/
def ScreenshotState.Destroy (ss : ScreenshotState) (o : DestroyOutcomes) (tr : Trace) :
    ScreenshotState × Trace :=
  match (if ss.hBitmap ≠ 0 then
      ({ ss with hBitmap := 0 }, (funcDeleteObject ss.hBitmap o.deleteObject tr).2)
    else (ss, tr)) with
  | (ss, tr) =>
  match (if ss.hMemoryDC ≠ 0 then
      ({ ss with hMemoryDC := 0 }, (funcDeleteDC ss.hMemoryDC o.deleteDC tr).2)
    else (ss, tr)) with
  | (ss, tr) =>
  match (if ss.hDC ≠ 0 then
      ({ ss with hDC := 0 }, (funcReleaseDC 0 ss.hDC o.releaseDC tr).2)
    else (ss, tr)) with
  | (ss, tr) => ({ ss with imageData := [] }, tr)

/-- Outcomes of the native calls of one `CreateState` call. -/
structure CreateOutcomes where
  getDC : Raw
  createCompatibleDC : Raw
  horzRes : Raw
  vertRes : Raw
  createCompatibleBitmap : Raw
  destroy : DestroyOutcomes
  deriving DecidableEq, Repr

/-- Lines 30-60.  The first component is Go's `(*ScreenshotState, error)`. -/
def CreateState (o : CreateOutcomes) (tr : Trace) :
    (Option ScreenshotState × Option GoError) × Trace :=
  let ss : ScreenshotState := {}
  match funcGetDC 0 o.getDC tr with
  | ((h, err), tr) =>
  let ss := { ss with hDC := h }
  if err ≠ none then ((none, err), (ss.Destroy o.destroy tr).2) else
  match funcCreateCompatibleDC ss.hDC o.createCompatibleDC tr with
  | ((h, err), tr) =>
  let ss := { ss with hMemoryDC := h }
  if err ≠ none then ((none, err), (ss.Destroy o.destroy tr).2) else
  match funcGetDeviceCaps ss.hDC cHORZRES o.horzRes tr with
  | ((w, err), tr) =>
  let ss := { ss with width := w }
  if err ≠ none then ((none, err), (ss.Destroy o.destroy tr).2) else
  match funcGetDeviceCaps ss.hDC cVERTRES o.vertRes tr with
  | ((w, err), tr) =>
  let ss := { ss with height := w }
  if err ≠ none then ((none, err), (ss.Destroy o.destroy tr).2) else
  match funcCreateCompatibleBitmap ss.hDC ss.width ss.height o.createCompatibleBitmap tr with
  | ((h, err), tr) =>
  let ss := { ss with hBitmap := h }
  if err ≠ none then ((none, err), (ss.Destroy o.destroy tr).2) else
  let ss := { ss with imageData := [] }
  ((some ss, none), tr)

/-- Outcomes of the native calls of one `CreateStateWindow` call. -/
structure CreateWindowOutcomes where
  enumWindows : EnumOutcome
  getDC : Raw
  createCompatibleDC : Raw
  getClientRect : Raw
  rect : rectStruct
  createCompatibleBitmap : Raw
  destroy : DestroyOutcomes
  deriving DecidableEq, Repr

/-- Lines 62-93.  `funcGetClientRect` returns a rectangle exactly when it returns no
error, so the test of line 81 is the second match arm. -/
def CreateStateWindow (title : String) (o : CreateWindowOutcomes) (tr : Trace) :
    (Option ScreenshotState × Option GoError) × Trace :=
  let ss : ScreenshotState := {}
  match funcFindWindow title o.enumWindows tr with
  | ((h, err), tr) =>
  let ss := { ss with hWnd := h }
  if err ≠ none then ((none, err), (ss.Destroy o.destroy tr).2) else
  match funcGetDC ss.hWnd o.getDC tr with
  | ((h, err), tr) =>
  let ss := { ss with hDC := h }
  if err ≠ none then ((none, err), (ss.Destroy o.destroy tr).2) else
  match funcCreateCompatibleDC ss.hDC o.createCompatibleDC tr with
  | ((h, err), tr) =>
  let ss := { ss with hMemoryDC := h }
  if err ≠ none then ((none, err), (ss.Destroy o.destroy tr).2) else
  match funcGetClientRect ss.hWnd o.getClientRect o.rect tr with
  | ((some rect, none), tr) =>
    let ss := { ss with width := toUintptr (wrap32 (rect.Right - rect.Left)) }
    let ss := { ss with height := toUintptr (wrap32 (rect.Bottom - rect.Top)) }
    match funcCreateCompatibleBitmap ss.hDC ss.width ss.height o.createCompatibleBitmap tr with
    | ((h, err), tr) =>
    let ss := { ss with hBitmap := h }
    if err ≠ none then ((none, err), (ss.Destroy o.destroy tr).2) else
    ((some ss, none), tr)
  | ((_, err), tr) => ((none, err), (ss.Destroy o.destroy tr).2)

/-- Go's `image.Rectangle`. -/
structure Rectangle where
  MinX : Int
  MinY : Int
  MaxX : Int
  MaxY : Int
  deriving DecidableEq, Repr

/-- Go's `image.Rect(x0, y0, x1, y1)`, which orders the corners. -/
def imageRect (x0 y0 x1 y1 : Int) : Rectangle :=
  { MinX := if x0 > x1 then x1 else x0, MinY := if y0 > y1 then y1 else y0,
    MaxX := if x0 > x1 then x0 else x1, MaxY := if y0 > y1 then y0 else y1 }

/-- Go's `image.RGBA`. -/
structure RGBA where
  Pix : List Nat
  Stride : Int
  Rect : Rectangle
  deriving DecidableEq, Repr

/-- How a call of `MakeScreenshot` ends: it returns Go's `(*image.RGBA, error)`, or it
panics. -/
inductive Ret where
  | value (img : Option RGBA) (err : Option GoError)
  | panic
  deriving DecidableEq, Repr

/-- A finished `MakeScreenshot` call: how it ended, the session and the trace then. -/
structure Capture where
  ret : Ret
  ss : ScreenshotState
  tr : Trace
  deriving DecidableEq, Repr

/-- Outcomes of the native calls of one `MakeScreenshot` call.  `restore` is the
second SelectObject (line 117 or line 120, never both); `bmpScreen` is what GetObject
left in the structure it was given; `bits` is the content of the locked block after
GetDIBits, byte `i` being `bits[i]` (zero past the end, the block is zero-initialised). -/
structure CaptureOutcomes where
  getClientRect : Raw
  rect : rectStruct
  select : Raw
  bitBlt : Raw
  restore : Raw
  getObject : Raw
  bmpScreen : bitmapStruct
  globalAlloc : Raw
  globalLock : Raw
  getDiBits : Raw
  bits : List Nat
  globalUnlock : Raw
  getLastError : Raw
  globalFree : Raw
  deriving DecidableEq, Repr

/-- Lines 158-162: the locked block viewed as `dwBmpSize` bytes. -/
def captData (bits : List Nat) (dwBmpSize : Int) : List Nat :=
  (List.range dwBmpSize.toNat).map (fun i => bits.getD i 0 % 256)

/-- Lines 153-177, inside both deferred calls.  The loop cannot panic on a buffer of
the computed size, so a panic here is that of `make` and leaves the session as it was. -/
def MakeScreenshot.extract (ss : ScreenshotState) (o : CaptureOutcomes)
    (bmpScreen : bitmapStruct) (bmpInfo : bitmapInfoHeaderStruct) (dwBmpSize : Int)
    (lpBitmap : Nat) (tr : Trace) : Capture :=
  match funcGetDiBits ss.hDC ss.hBitmap 0 (toUintptr bmpScreen.BmHeight) lpBitmap
      cDIB_RGB_COLORS o.getDiBits tr with
  | ((_, err), tr) =>
  if err ≠ none then ⟨Ret.value none (some (GoError.msg "get dibits error")), ss, tr⟩ else
  match convert ss.imageData (captData o.bits dwBmpSize) dwBmpSize with
  | Run.done imageData =>
    let ss := { ss with imageData := imageData }
    let img : RGBA :=
      { Pix := ss.imageData, Stride := 4 * bmpInfo.BiWidth,
        Rect := imageRect 0 0 bmpInfo.BiWidth (-bmpInfo.BiHeight) }
    ⟨Ret.value (some img) none, ss, tr⟩
  | _ => ⟨Ret.panic, ss, tr⟩

/-- Lines 147-177, inside `defer funcGlobalFree(hDIB)`; the deferred
`funcGlobalUnlock(hDIB)` runs when the rest returns or panics. -/
def MakeScreenshot.lock (ss : ScreenshotState) (o : CaptureOutcomes)
    (bmpScreen : bitmapStruct) (bmpInfo : bitmapInfoHeaderStruct) (dwBmpSize : Int)
    (hDIB : Nat) (tr : Trace) : Capture :=
  match funcGlobalLock hDIB o.globalLock tr with
  | ((lpBitmap, err), tr) =>
  if err ≠ none then ⟨Ret.value none (some (GoError.msg "global lock error")), ss, tr⟩ else
  let r := MakeScreenshot.extract ss o bmpScreen bmpInfo dwBmpSize lpBitmap tr
  { r with tr := (funcGlobalUnlock hDIB o.globalUnlock o.getLastError r.tr).2 }

/-- Lines 98-107: the staleness check of a window-mode session.  It yields the error
to return, if any. -/
def MakeScreenshot.stale (ss : ScreenshotState) (o : CaptureOutcomes) (tr : Trace) :
    Option GoError × Trace :=
  if ss.hWnd ≠ 0 then
    match funcGetClientRect ss.hWnd o.getClientRect o.rect tr with
    | ((none, _), tr) => (some (GoError.msg "invalid client rect"), tr)
    | ((some rect, _), tr) =>
      if ss.width ≠ toUintptr (wrap32 (rect.Right - rect.Left)) ∨
          ss.height ≠ toUintptr (wrap32 (rect.Bottom - rect.Top)) then
        (some (GoError.msg "window has changed size"), tr)
      else (none, tr)
  else (none, tr)

/-- Lines 109-177.  `funcGetObject` is called for its effect on `bmpScreen` only: its
results are dropped, and the test on line 127 reads the `err` of line 120.  The deferred
`funcGlobalFree(hDIB)` runs when the rest returns or panics. -/
def MakeScreenshot.capture (ss : ScreenshotState) (o : CaptureOutcomes) (tr : Trace) :
    Capture :=
  match funcSelectObject ss.hMemoryDC ss.hBitmap o.select tr with
  | ((old, err), tr) =>
  let ss := { ss with hOldBitmap := old }
  if err ≠ none then
    ⟨Ret.value none (some (GoError.msg "select object hBitmap error")), ss, tr⟩ else
  match funcBitBlt ss.hMemoryDC 0 0 ss.width ss.height ss.hDC 0 0 cSRCCPY o.bitBlt tr with
  | (err, tr) =>
  if err ≠ none then
    ⟨Ret.value none (some (GoError.msg "bitblt error")), ss,
      (funcSelectObject ss.hMemoryDC ss.hOldBitmap o.restore tr).2⟩
  else
  match funcSelectObject ss.hMemoryDC ss.hOldBitmap o.restore tr with
  | ((_, err), tr) =>
  if err ≠ none then
    ⟨Ret.value none (some (GoError.msg "select object hOldBitmap error")), ss, tr⟩ else
  let bmpScreen := o.bmpScreen
  match funcGetObject ss.hBitmap 32 o.getObject tr with
  | (_, tr) =>
  if err ≠ none then ⟨Ret.value none (some (GoError.msg "get object error")), ss, tr⟩ else
  let bmpInfo : bitmapInfoHeaderStruct :=
    { BiSize := 40, BiWidth := bmpScreen.BmWidth, BiHeight := wrap32 (-bmpScreen.BmHeight),
      BiPlanes := bmpScreen.BmPlanes, BiBitCount := bmpScreen.BmBitsPixel,
      BiCompression := cBI_RGB }
  let dwBmpSize := dwBmpSize bmpScreen.BmWidth bmpInfo.BiBitCount bmpScreen.BmHeight
  match funcGlobalAlloc cGHND (toUintptr dwBmpSize) o.globalAlloc tr with
  | ((hDIB, err), tr) =>
  if err ≠ none then ⟨Ret.value none (some (GoError.msg "global alloc error")), ss, tr⟩ else
  let r := MakeScreenshot.lock ss o bmpScreen bmpInfo dwBmpSize hDIB tr
  { r with tr := (funcGlobalFree hDIB o.globalFree r.tr).2 }

/-- Lines 95-178. -/
def ScreenshotState.MakeScreenshot (ss : ScreenshotState) (o : CaptureOutcomes) (tr : Trace) :
    Capture :=
  match MakeScreenshot.stale ss o tr with
  | (some e, tr) => ⟨Ret.value none (some e), ss, tr⟩
  | (none, tr) => MakeScreenshot.capture ss o tr

/-! ## Reading a trace -/

/-- The three kinds of handle a session owns. -/
inductive Resource where
  | referenceDC (h : Nat)
  | memoryDC (h : Nat)
  | bitmap (h : Nat)
  deriving DecidableEq, Repr

/-- The handles a trace acquired: every GetDC, CreateCompatibleDC and
CreateCompatibleBitmap call that returned a non-zero handle, oldest first. -/
def acquired (tr : Trace) : List Resource :=
  tr.filterMap fun e =>
    match e.call with
    | Call.GetDC _ => if e.r0 ≠ 0 then some (Resource.referenceDC e.r0) else none
    | Call.CreateCompatibleDC _ => if e.r0 ≠ 0 then some (Resource.memoryDC e.r0) else none
    | Call.CreateCompatibleBitmap _ _ _ => if e.r0 ≠ 0 then some (Resource.bitmap e.r0) else none
    | _ => none

/-- The handles a trace released: every ReleaseDC, DeleteDC and DeleteObject call,
oldest first. -/
def released (tr : Trace) : List Resource :=
  tr.filterMap fun e =>
    match e.call with
    | Call.ReleaseDC _ hdc => some (Resource.referenceDC hdc)
    | Call.DeleteDC hdc => some (Resource.memoryDC hdc)
    | Call.DeleteObject h => some (Resource.bitmap h)
    | _ => none

/-- The calls of a trace, without their results. -/
def calls (tr : Trace) : List Call := tr.map Event.call

/-- The SelectObject calls of a trace, oldest first. -/
def selects (tr : Trace) : List Event :=
  tr.filter fun e =>
    match e.call with
    | Call.SelectObject _ _ => true
    | _ => false

/-! ## Titles as the wrapper reports them, and the listing-based resolver -/

/-- The title `funcGetWindowText` returns for a surface. -/
def Surface.title (s : Surface) : String := (funcGetWindowText s.hwnd s.text s.decoded []).1.1

/-- The resolver as the specification words it: the handle of the first entry of the
listing of `EnumWindowList` whose title is the given one. -/
def resolveInListing (title : String) (e : EnumOutcome) : Option Nat :=
  ((EnumWindowList e []).1.find? (fun w => decide (w.Title = title))).map WindowStruct.HWND

/-! ## Concrete sessions and outcomes -/

/-- A display-mode session of 2 by 2 pixels. -/
def displaySession : ScreenshotState :=
  { hDC := 11, hMemoryDC := 12, width := 2, height := 2, hBitmap := 13 }

/-- A window-mode session of 2 by 2 pixels on window 7. -/
def windowSession : ScreenshotState :=
  { hWnd := 7, hDC := 11, hMemoryDC := 12, width := 2, height := 2, hBitmap := 13,
    imageData := [5, 6, 7, 8] }

/-- Every native call of a capture succeeds; the bitmap has 32 bits per pixel. -/
def capture32 : CaptureOutcomes :=
  { getClientRect := ⟨1, 0⟩, rect := { Right := 2, Bottom := 2 },
    select := ⟨21, 0⟩, bitBlt := ⟨1, 0⟩, restore := ⟨13, 0⟩,
    getObject := ⟨32, 0⟩,
    bmpScreen := { BmWidth := 2, BmHeight := 2, BmWidthBytes := 8, BmPlanes := 1,
                   BmBitsPixel := 32 },
    globalAlloc := ⟨31, 0⟩, globalLock := ⟨4096, 0⟩, getDiBits := ⟨2, 0⟩,
    bits := [1, 2, 3, 4, 5, 6, 7, 8, 9, 10, 11, 12, 13, 14, 15, 16],
    globalUnlock := ⟨0, 0⟩, getLastError := ⟨0, 0⟩, globalFree := ⟨0, 0⟩ }

/-- The same capture on a display of 16 bits per pixel. -/
def capture16 : CaptureOutcomes :=
  { capture32 with
    bmpScreen := { BmWidth := 2, BmHeight := 2, BmWidthBytes := 4, BmPlanes := 1,
                   BmBitsPixel := 16 },
    bits := [1, 2, 3, 4, 5, 6, 7, 8] }

/-- The same capture when GetObject fails and leaves `bmpScreen` zeroed. -/
def captureNoObject : CaptureOutcomes :=
  { capture32 with getObject := ⟨0, 6⟩, bmpScreen := {}, bits := [] }

/-- The same capture when the blit fails. -/
def captureNoBlit : CaptureOutcomes := { capture32 with bitBlt := ⟨0, 6⟩ }

/-- The same capture when the extraction fails. -/
def captureNoBits : CaptureOutcomes := { capture32 with getDiBits := ⟨0, 6⟩ }

/-- The window now has a client rectangle of 3 by 2. -/
def captureResized : CaptureOutcomes := { capture32 with rect := { Right := 3, Bottom := 2 } }

/-- A creation in which the resolution query fails after both contexts were acquired. -/
def createNoCaps : CreateOutcomes :=
  { getDC := ⟨11, 0⟩, createCompatibleDC := ⟨12, 0⟩, horzRes := ⟨0, 6⟩, vertRes := ⟨2, 0⟩,
    createCompatibleBitmap := ⟨13, 0⟩, destroy := ⟨⟨1, 0⟩, ⟨1, 0⟩, ⟨1, 0⟩⟩ }

/-- A hidden and a visible window, both titled Calculator. -/
def twoCalculators : EnumOutcome :=
  { surfaces := [⟨7, ⟨10, 0⟩, "Calculator", ⟨0, 0⟩⟩, ⟨9, ⟨10, 0⟩, "Calculator", ⟨1, 0⟩⟩],
    raw := ⟨1, 0⟩ }

/-- A window creation in which the bitmap cannot be created. -/
def createWindowNoBitmap : CreateWindowOutcomes :=
  { enumWindows := twoCalculators, getDC := ⟨11, 0⟩, createCompatibleDC := ⟨12, 0⟩,
    getClientRect := ⟨1, 0⟩, rect := { Right := 2, Bottom := 2 },
    createCompatibleBitmap := ⟨0, 8⟩, destroy := ⟨⟨1, 0⟩, ⟨1, 0⟩, ⟨1, 0⟩⟩ }

/-- Four surfaces in visiting order: a visible one whose title is empty (GetWindowTextW
returns 0), visible ones titled A and B, and a hidden one titled C. -/
def mixedSurfaces : EnumOutcome :=
  { surfaces := [⟨1, ⟨0, 0⟩, "", ⟨1, 0⟩⟩, ⟨2, ⟨1, 0⟩, "A", ⟨1, 0⟩⟩, ⟨3, ⟨1, 0⟩, "B", ⟨1, 0⟩⟩,
      ⟨4, ⟨1, 0⟩, "C", ⟨0, 0⟩⟩],
    raw := ⟨1, 0⟩ }

/-- A single hidden window titled Calculator. -/
def hiddenCalculator : EnumOutcome :=
  { surfaces := [⟨7, ⟨10, 0⟩, "Calculator", ⟨0, 0⟩⟩], raw := ⟨1, 0⟩ }

/-! ## Helper lemmas: size arithmetic, the conversion loop, traces of the wrappers -/

theorem ite_pair_snd {α β : Type} (c : Prop) [Decidable c] (a b : α) (t : β) :
    (if c then (a, t) else (b, t)).2 = t := by
  split <;> rfl

theorem dwBmpSize_mod4 (w : Int) (b : Nat) (h : Int) : dwBmpSize w b h % 4 = 0 := by
  unfold dwBmpSize
  generalize Int.tdiv (wrap32 (wrap32 (w * (b : Int)) + 31)) 32 = c
  have h1 : ∃ k, wrap32 (c * 4) = 4 * k := by
    refine ⟨wrap32 (c*4) / 4, ?_⟩
    unfold wrap32; omega
  obtain ⟨k, hk⟩ := h1
  rw [hk, show 4 * k * h = 4 * (k * h) by ring]
  generalize k * h = m
  unfold wrap32; omega

/-- Loop invariant of the conversion loop, started at a pixel boundary `p` of
buffers of equal length `N` (a multiple of 4): it finishes, keeps the length,
leaves the bytes below `p` alone and converts every pixel from `p` on. -/
theorem convertLoop_spec (N : Nat) (capt : List Nat) (hc : capt.length = N) (hN : N % 4 = 0) :
    ∀ (fuel p : Nat) (img : List Nat), img.length = N → p % 4 = 0 → p ≤ N → N < p + 4 * fuel →
      ∃ out, convertLoop fuel (N : Int) p img capt = Run.done out ∧ out.length = N ∧
        (∀ j, j < p → out[j]? = img[j]?) ∧
        (∀ i, p ≤ i → i % 4 = 0 → i < N →
          out[i]? = capt[i + 2]? ∧ out[i + 1]? = capt[i + 1]? ∧ out[i + 2]? = capt[i]? ∧
            out[i + 3]? = some 255) := by
  intro fuel
  induction fuel with
  | zero => intro p img _ _ h1 h2; omega
  | succ fuel ih =>
    intro p img hi hp hle hfuel
    unfold convertLoop
    by_cases hlt : (p : Int) < (N : Int)
    · have hpN : p < N := by exact_mod_cast hlt
      have h3 : p + 3 < N := by omega
      rw [if_pos hlt]
      have e2 : capt[p + 2]? = some (capt[p + 2]) := List.getElem?_eq_getElem (by omega)
      have e1 : capt[p + 1]? = some (capt[p + 1]) := List.getElem?_eq_getElem (by omega)
      have e0 : capt[p]? = some (capt[p]) := List.getElem?_eq_getElem (by omega)
      rw [e2, e1, e0]
      simp only []
      rw [if_pos (by omega)]
      obtain ⟨out, ho, hlen, hlow, hpix⟩ :=
        ih (p + 4) ((((img.set p capt[p + 2]).set (p + 1) capt[p + 1]).set (p + 2) capt[p]).set
          (p + 3) 255) (by simp [hi]) (by omega) (by omega) (by omega)
      refine ⟨out, ho, hlen, ?_, ?_⟩
      · intro j hj
        rw [hlow j (by omega)]
        simp only [List.getElem?_set]
        have : ¬ p + 3 = j := by omega
        have : ¬ p + 2 = j := by omega
        have : ¬ p + 1 = j := by omega
        have : ¬ p = j := by omega
        simp [*]
      · intro i hpi hi4 hiN
        by_cases hip : i = p
        · subst hip
          rw [hlow i (by omega), hlow (i + 1) (by omega), hlow (i + 2) (by omega),
            hlow (i + 3) (by omega)]
          simp only [List.getElem?_set, List.length_set, hi]
          simp [e2, e1, e0, hpN, h3]
          refine ⟨?_, ?_⟩ <;> omega
        · exact hpix i (by omega) hi4 hiN
    · have hpN : p = N := by
        have : ¬ p < N := by exact_mod_cast hlt
        omega
      rw [if_neg hlt]
      refine ⟨img, rfl, hi, fun _ _ => rfl, ?_⟩
      intro i h1 _ h2; omega


/-- The conversion of a block of the computed size: it panics exactly on a negative
size (in `make`), and otherwise finishes with a buffer of that size. -/
theorem convert_captData (img bits : List Nat) (n : Int) (h4 : n % 4 = 0) :
    (n < 0 → convert img (captData bits n) n = Run.panic) ∧
    (0 ≤ n → ∃ out, convert img (captData bits n) n = Run.done out ∧ (out.length : Int) = n) := by
  constructor
  · intro hn
    have : (img.length : Int) ≠ n := by omega
    simp [convert, this, hn]
  · intro hn
    obtain ⟨N, rfl⟩ := Int.eq_ofNat_of_zero_le hn
    have hN : N % 4 = 0 := by omega
    have hc : (captData bits (N : Int)).length = N := by simp [captData]
    have key : ∀ img : List Nat, img.length = N →
        ∃ out, convertLoop (N + 1) (N : Int) 0 img (captData bits (N : Int)) = Run.done out ∧
          (out.length : Int) = (N : Int) := by
      intro img himg
      obtain ⟨out, ho, hlen, _⟩ :=
        convertLoop_spec N (captData bits (N : Int)) hc hN (N + 1) 0 img himg (by simp)
          (by omega) (by omega)
      exact ⟨out, ho, by exact_mod_cast hlen⟩
    unfold convert
    simp only [Int.toNat_ofNat]
    by_cases hlen : (img.length : Int) ≠ (N : Int)
    · rw [if_pos hlen, if_neg (by omega)]
      exact key _ (by simp)
    · rw [if_neg hlen]
      exact key _ (by push_neg at hlen; exact_mod_cast hlen)

theorem stale_tr (ss : ScreenshotState) (o : CaptureOutcomes) (tr : Trace) :
    (MakeScreenshot.stale ss o tr).2 = tr ++
      (if ss.hWnd ≠ 0 then [⟨Call.GetClientRect ss.hWnd, o.getClientRect.r0⟩] else []) := by
  unfold MakeScreenshot.stale funcGetClientRect native
  by_cases h : ss.hWnd = 0
  · simp [h]
  · by_cases h0 : o.getClientRect.r0 = 0
    · simp [h, h0]
    · simp only [ne_eq, h, not_false_eq_true, if_true, h0, if_false]
      split_ifs <;> rfl

theorem extract_tr (ss : ScreenshotState) (o : CaptureOutcomes) (b : bitmapStruct)
    (bi : bitmapInfoHeaderStruct) (n : Int) (lp : Nat) (tr : Trace) :
    (MakeScreenshot.extract ss o b bi n lp tr).tr = tr ++
      [⟨Call.GetDIBits ss.hDC ss.hBitmap 0 (toUintptr b.BmHeight) lp cDIB_RGB_COLORS,
        o.getDiBits.r0⟩] := by
  unfold MakeScreenshot.extract funcGetDiBits native
  by_cases h0 : o.getDiBits.r0 = 0
  · simp [h0]
  · simp only [h0, if_false, ne_eq, not_true_eq_false]
    split <;> rfl

theorem lock_tr (ss : ScreenshotState) (o : CaptureOutcomes) (b : bitmapStruct)
    (bi : bitmapInfoHeaderStruct) (n : Int) (h : Nat) (tr : Trace) :
    (MakeScreenshot.lock ss o b bi n h tr).tr = tr ++ [⟨Call.GlobalLock h, o.globalLock.r0⟩] ++
      (if o.globalLock.r0 = 0 then []
       else [⟨Call.GetDIBits ss.hDC ss.hBitmap 0 (toUintptr b.BmHeight) o.globalLock.r0
                cDIB_RGB_COLORS, o.getDiBits.r0⟩,
             ⟨Call.GlobalUnlock h, o.globalUnlock.r0⟩,
             ⟨Call.GetLastError, o.getLastError.r0⟩]) := by
  unfold MakeScreenshot.lock
  by_cases h0 : o.globalLock.r0 = 0
  · simp [funcGlobalLock, native, h0]
  · simp [funcGlobalLock, funcGlobalUnlock, funcGetLastError, native, h0, extract_tr,
      ite_pair_snd]

/-- The native calls of lines 109-177, in order. -/
theorem capture_tr (ss : ScreenshotState) (o : CaptureOutcomes) (tr : Trace) :
    (MakeScreenshot.capture ss o tr).tr = tr ++
      [⟨Call.SelectObject ss.hMemoryDC ss.hBitmap, o.select.r0⟩] ++
      (if o.select.r0 = 0 then []
       else [⟨Call.BitBlt ss.hMemoryDC 0 0 ss.width ss.height ss.hDC 0 0 cSRCCPY, o.bitBlt.r0⟩,
             ⟨Call.SelectObject ss.hMemoryDC o.select.r0, o.restore.r0⟩] ++
        (if o.bitBlt.r0 = 0 ∨ o.restore.r0 = 0 then []
         else [⟨Call.GetObject ss.hBitmap 32, o.getObject.r0⟩,
               ⟨Call.GlobalAlloc cGHND (toUintptr (dwBmpSize o.bmpScreen.BmWidth
                  o.bmpScreen.BmBitsPixel o.bmpScreen.BmHeight)), o.globalAlloc.r0⟩] ++
          (if o.globalAlloc.r0 = 0 then []
           else [⟨Call.GlobalLock o.globalAlloc.r0, o.globalLock.r0⟩] ++
            (if o.globalLock.r0 = 0 then []
             else [⟨Call.GetDIBits ss.hDC ss.hBitmap 0 (toUintptr o.bmpScreen.BmHeight)
                      o.globalLock.r0 cDIB_RGB_COLORS, o.getDiBits.r0⟩,
                   ⟨Call.GlobalUnlock o.globalAlloc.r0, o.globalUnlock.r0⟩,
                   ⟨Call.GetLastError, o.getLastError.r0⟩]) ++
            [⟨Call.GlobalFree o.globalAlloc.r0, o.globalFree.r0⟩]))) := by
  unfold MakeScreenshot.capture
  by_cases h1 : o.select.r0 = 0
  · simp [funcSelectObject, native, h1]
  by_cases h2 : o.bitBlt.r0 = 0
  · simp [funcSelectObject, funcBitBlt, native, h1, h2, ite_pair_snd]
  by_cases h3 : o.restore.r0 = 0
  · simp [funcSelectObject, funcBitBlt, native, h1, h2, h3]
  by_cases h4 : o.globalAlloc.r0 = 0
  · simp [funcSelectObject, funcBitBlt, funcGetObject, funcGlobalAlloc, native, h1, h2, h3, h4,
      ite_pair_snd]
  · simp [funcSelectObject, funcBitBlt, funcGetObject, funcGlobalAlloc, funcGlobalFree, native,
      h1, h2, h3, h4, ite_pair_snd, lock_tr]

theorem MakeScreenshot_tr_of_pass (ss : ScreenshotState) (o : CaptureOutcomes) (tr : Trace) :
    ((ss.MakeScreenshot o tr).tr = (MakeScreenshot.stale ss o tr).2 ∧
      ∃ e, (ss.MakeScreenshot o tr).ret = Ret.value none (some e)) ∨
    ss.MakeScreenshot o tr = MakeScreenshot.capture ss o (MakeScreenshot.stale ss o tr).2 := by
  unfold ScreenshotState.MakeScreenshot
  generalize MakeScreenshot.stale ss o tr = r
  obtain ⟨e, tr1⟩ := r
  cases e with
  | some e => left; exact ⟨rfl, e, rfl⟩
  | none => right; rfl

/-! ## The claims -/

/-- The conversion step on a raw buffer whose length is the computed size: whatever
the persistent buffer held, it finishes with a buffer of that length which holds
`raw[i+2], raw[i+1], raw[i], 0xFF` at every pixel offset `i`. -/
theorem convert_spec (BmWidth BmHeight : Int) (BiBitCount : Nat)
    (imageData raw : List Nat)
    (hraw : (raw.length : Int) = dwBmpSize BmWidth BiBitCount BmHeight) :
    ∃ out, convert imageData raw (dwBmpSize BmWidth BiBitCount BmHeight) = Run.done out ∧
      out.length = raw.length ∧
      ∀ i, i % 4 = 0 → i < raw.length →
        i + 3 < out.length ∧
        out[i]? = raw[i + 2]? ∧ out[i + 1]? = raw[i + 1]? ∧ out[i + 2]? = raw[i]? ∧
          out[i + 3]? = some 255 := by
  have h4 := dwBmpSize_mod4 BmWidth BiBitCount BmHeight
  rw [← hraw] at h4 ⊢
  have hN : raw.length % 4 = 0 := by omega
  unfold convert
  simp only [Int.toNat_ofNat]
  have key : ∀ img : List Nat, img.length = raw.length →
      ∃ out, convertLoop (raw.length + 1) (raw.length : Int) 0 img raw = Run.done out ∧
      out.length = raw.length ∧
      ∀ i, i % 4 = 0 → i < raw.length →
        i + 3 < out.length ∧
        out[i]? = raw[i + 2]? ∧ out[i + 1]? = raw[i + 1]? ∧ out[i + 2]? = raw[i]? ∧
          out[i + 3]? = some 255 := by
    intro img himg
    obtain ⟨out, ho, hlen, _, hpix⟩ :=
      convertLoop_spec raw.length raw rfl hN (raw.length + 1) 0 img himg (by simp) (by omega)
        (by omega)
    exact ⟨out, ho, hlen, fun i hi hlt => ⟨by omega, hpix i (by omega) hi hlt⟩⟩
  by_cases hlen : (imageData.length : Int) ≠ (raw.length : Int)
  · rw [if_pos hlen, if_neg (by omega)]
    exact key _ (by simp)
  · rw [if_neg hlen]
    exact key _ (by push_neg at hlen; exact_mod_cast hlen)

/-- A raw buffer of bytes of the computed size is what the view of lines 158-162 reads. -/
theorem captData_of_bytes (raw : List Nat) (n : Int) (hlen : (raw.length : Int) = n)
    (hbyte : ∀ b ∈ raw, b < 256) : captData raw n = raw := by
  subst hlen
  unfold captData
  simp only [Int.toNat_ofNat]
  apply List.ext_getElem (by simp)
  intro i h1 h2
  have hlt : raw[i] < 256 := hbyte _ (List.getElem_mem h2)
  simp [List.getD_eq_getElem?_getD, List.getElem?_eq_getElem h2, Nat.mod_eq_of_lt hlt]

/-- C1. The conversion step of `MakeScreenshot`.  In every call that reaches it (the
trace shows GetDIBits succeeding), for every raw buffer `o.bits` of bytes in the locked
block whose length is the computed size `n`, and whatever the session's persistent
buffer held before, the call returns an image whose `Pix` is the session's persistent
buffer after the call; that buffer has length `n` and holds, at every pixel offset `i`
(a multiple of 4 below `n`), the bytes `raw[i+2], raw[i+1], raw[i], 0xFF`. -/
theorem MakeScreenshot_converts_pixels (ss : ScreenshotState) (o : CaptureOutcomes)
    (lp r : Nat)
    (hlen : (o.bits.length : Int) =
      dwBmpSize o.bmpScreen.BmWidth o.bmpScreen.BmBitsPixel o.bmpScreen.BmHeight)
    (hbyte : ∀ b ∈ o.bits, b < 256)
    (hext : ⟨Call.GetDIBits ss.hDC ss.hBitmap 0 (toUintptr o.bmpScreen.BmHeight) lp
      cDIB_RGB_COLORS, r⟩ ∈ (ss.MakeScreenshot o []).tr)
    (hr : r ≠ 0) :
    ∃ img, (ss.MakeScreenshot o []).ret = Ret.value (some img) none ∧
      (ss.MakeScreenshot o []).ss.imageData = img.Pix ∧
      img.Pix.length = o.bits.length ∧
      ∀ i, i % 4 = 0 → i < o.bits.length →
        i + 3 < img.Pix.length ∧
        img.Pix[i]? = o.bits[i + 2]? ∧ img.Pix[i + 1]? = o.bits[i + 1]? ∧
          img.Pix[i + 2]? = o.bits[i]? ∧ img.Pix[i + 3]? = some 255 := by
  rcases MakeScreenshot_tr_of_pass ss o [] with ⟨hs, _⟩ | hs
  · rw [hs, stale_tr] at hext
    by_cases hw : ss.hWnd = 0 <;> simp [hw] at hext
  · rw [hs]
    rw [hs, capture_tr, stale_tr] at hext
    by_cases h1 : o.select.r0 = 0
    · by_cases hw : ss.hWnd = 0 <;> simp [hw, h1] at hext
    by_cases h2 : o.bitBlt.r0 = 0
    · by_cases hw : ss.hWnd = 0 <;> simp [hw, h1, h2] at hext
    by_cases h3 : o.restore.r0 = 0
    · by_cases hw : ss.hWnd = 0 <;> simp [hw, h1, h2, h3] at hext
    by_cases h4 : o.globalAlloc.r0 = 0
    · by_cases hw : ss.hWnd = 0 <;> simp [hw, h1, h2, h3, h4] at hext
    by_cases h5 : o.globalLock.r0 = 0
    · by_cases hw : ss.hWnd = 0 <;> simp [hw, h1, h2, h3, h4, h5] at hext
    have h6 : ¬ o.getDiBits.r0 = 0 := by
      by_cases hw : ss.hWnd = 0 <;> simp [hw, h1, h2, h3, h4, h5] at hext <;> omega
    obtain ⟨out, ho, hlo, hpix⟩ :=
      convert_spec o.bmpScreen.BmWidth o.bmpScreen.BmHeight o.bmpScreen.BmBitsPixel
        ss.imageData o.bits hlen
    have hcd : captData o.bits
        (dwBmpSize o.bmpScreen.BmWidth o.bmpScreen.BmBitsPixel o.bmpScreen.BmHeight) = o.bits :=
      captData_of_bytes o.bits _ hlen hbyte
    refine ⟨⟨out, 4 * o.bmpScreen.BmWidth,
      imageRect 0 0 o.bmpScreen.BmWidth (-wrap32 (-o.bmpScreen.BmHeight))⟩, ?_, ?_, hlo, hpix⟩
    · simp [MakeScreenshot.capture, MakeScreenshot.lock, MakeScreenshot.extract,
        funcSelectObject, funcBitBlt, funcGetObject, funcGlobalAlloc, funcGlobalLock,
        funcGetDiBits, native, h1, h2, h3, h4, h5, h6, hcd, ho]
    · simp [MakeScreenshot.capture, MakeScreenshot.lock, MakeScreenshot.extract,
        funcSelectObject, funcBitBlt, funcGetObject, funcGlobalAlloc, funcGlobalLock,
        funcGetDiBits, native, h1, h2, h3, h4, h5, h6, hcd, ho]

/-- C1 at a concrete input: a 2 by 2 capture at 32 bits per pixel in a window session
whose persistent buffer is stale; the returned `Pix` and the session's buffer are the
converted bytes. -/
theorem MakeScreenshot_converts_pixels_witness :
    ((⟨Call.GetDIBits 11 13 0 2 4096 cDIB_RGB_COLORS, 2⟩ : Event) ∈
        (windowSession.MakeScreenshot capture32 []).tr) ∧
    (windowSession.MakeScreenshot capture32 []).ret =
      Ret.value (some ⟨[3, 2, 1, 255, 7, 6, 5, 255, 11, 10, 9, 255, 15, 14, 13, 255], 8,
        ⟨0, 0, 2, 2⟩⟩) none ∧
    (windowSession.MakeScreenshot capture32 []).ss.imageData =
      [3, 2, 1, 255, 7, 6, 5, 255, 11, 10, 9, 255, 15, 14, 13, 255] ∧
    ∃ img, (windowSession.MakeScreenshot capture32 []).ret = Ret.value (some img) none ∧
      (windowSession.MakeScreenshot capture32 []).ss.imageData = img.Pix ∧
      img.Pix.length = capture32.bits.length ∧
      ∀ i, i % 4 = 0 → i < capture32.bits.length →
        i + 3 < img.Pix.length ∧
        img.Pix[i]? = capture32.bits[i + 2]? ∧ img.Pix[i + 1]? = capture32.bits[i + 1]? ∧
          img.Pix[i + 2]? = capture32.bits[i]? ∧ img.Pix[i + 3]? = some 255 :=
  ⟨by decide, by decide, by decide,
    MakeScreenshot_converts_pixels windowSession capture32 4096 2 (by decide) (by decide)
      (by decide) (by decide)⟩

theorem wrap32_of_range (x : Int) (h1 : -2147483648 ≤ x) (h2 : x < 2147483648) :
    wrap32 x = x := by
  unfold wrap32; omega

/-- At 32 bits per pixel and without `int32` overflow the raw size is `w*h*4`. -/
theorem dwBmpSize_32 (w h : Int) (hw : 0 ≤ w) (hh : 0 ≤ h) (h1 : w * 32 + 31 < 2147483648)
    (h2 : w * h * 4 < 2147483648) : dwBmpSize w 32 h = w * h * 4 := by
  unfold dwBmpSize
  have e1 : wrap32 (w * ((32 : Nat) : Int)) = w * 32 := by
    rw [show ((32 : Nat) : Int) = 32 by rfl]
    exact wrap32_of_range _ (by omega) (by omega)
  have e2 : wrap32 (w * 32 + 31) = w * 32 + 31 := wrap32_of_range _ (by omega) (by omega)
  have e3 : Int.tdiv (w * 32 + 31) 32 = w := by
    rw [Int.tdiv_eq_ediv (by omega) (by omega)]; omega
  have e4 : wrap32 (w * 4) = w * 4 := wrap32_of_range _ (by omega) (by omega)
  have e5 : w * 4 * h = w * h * 4 := by ring
  have hnn : 0 ≤ w * h := Int.mul_nonneg hw hh
  rw [e1, e2, e3, e4, e5]
  exact wrap32_of_range _ (by omega) (by omega)

/-- The image of a successful capture: its stride and the length of its pixel
buffer, from the metadata in `bmpScreen`. -/
theorem capture_image (ss : ScreenshotState) (o : CaptureOutcomes) (tr : Trace) (img : RGBA)
    (h : (MakeScreenshot.capture ss o tr).ret = Ret.value (some img) none) :
    img.Stride = 4 * o.bmpScreen.BmWidth ∧
    (img.Pix.length : Int) =
      dwBmpSize o.bmpScreen.BmWidth o.bmpScreen.BmBitsPixel o.bmpScreen.BmHeight := by
  unfold MakeScreenshot.capture at h
  by_cases h1 : o.select.r0 = 0
  · simp [funcSelectObject, native, h1] at h
  by_cases h2 : o.bitBlt.r0 = 0
  · simp [funcSelectObject, funcBitBlt, native, h1, h2] at h
  by_cases h3 : o.restore.r0 = 0
  · simp [funcSelectObject, funcBitBlt, native, h1, h2, h3] at h
  by_cases h4 : o.globalAlloc.r0 = 0
  · simp [funcSelectObject, funcBitBlt, funcGetObject, funcGlobalAlloc, native, h1, h2, h3,
      h4] at h
  by_cases h5 : o.globalLock.r0 = 0
  · simp [funcSelectObject, funcBitBlt, funcGetObject, funcGlobalAlloc, funcGlobalLock,
      MakeScreenshot.lock, native, h1, h2, h3, h4, h5] at h
  by_cases h6 : o.getDiBits.r0 = 0
  · simp [funcSelectObject, funcBitBlt, funcGetObject, funcGlobalAlloc, funcGlobalLock,
      funcGetDiBits, MakeScreenshot.lock, MakeScreenshot.extract, native, h1, h2, h3, h4, h5,
      h6] at h
  have h4m := dwBmpSize_mod4 o.bmpScreen.BmWidth o.bmpScreen.BmBitsPixel o.bmpScreen.BmHeight
  obtain ⟨hneg, hpos⟩ := convert_captData ss.imageData o.bits _ h4m
  by_cases hn : dwBmpSize o.bmpScreen.BmWidth o.bmpScreen.BmBitsPixel o.bmpScreen.BmHeight < 0
  · have hp := hneg hn
    simp [funcSelectObject, funcBitBlt, funcGetObject, funcGlobalAlloc, funcGlobalLock,
      funcGetDiBits, MakeScreenshot.lock, MakeScreenshot.extract, native, h1, h2, h3, h4, h5,
      h6, hp] at h
  · obtain ⟨out, ho, hlen⟩ := hpos (by omega)
    simp [funcSelectObject, funcBitBlt, funcGetObject, funcGlobalAlloc, funcGlobalLock,
      funcGetDiBits, MakeScreenshot.lock, MakeScreenshot.extract, native, h1, h2, h3, h4, h5,
      h6, ho] at h
    subst h
    exact ⟨rfl, hlen⟩

/-- Where the size claim does hold: a successful `MakeScreenshot` call whose bitmap
metadata gives the session's `Width()` and `Height()` at 32 bits per pixel, with
non-negative dimensions and no `int32` overflow, returns an image of Stride `4*Width()`
whose pixel buffer has `Width()*Height()*4` bytes. -/
theorem MakeScreenshot_image_size_32bpp (ss : ScreenshotState) (o : CaptureOutcomes)
    (tr : Trace) (img : RGBA)
    (hok : (ss.MakeScreenshot o tr).ret = Ret.value (some img) none)
    (hw : o.bmpScreen.BmWidth = ss.Width) (hh : o.bmpScreen.BmHeight = ss.Height)
    (hb : o.bmpScreen.BmBitsPixel = 32) (h0 : 0 ≤ ss.Width) (h1 : 0 ≤ ss.Height)
    (h2 : ss.Width * 32 + 31 < 2147483648) (h3 : ss.Width * ss.Height * 4 < 2147483648) :
    img.Stride = 4 * ss.Width ∧ (img.Pix.length : Int) = ss.Width * ss.Height * 4 := by
  have hcap : img.Stride = 4 * o.bmpScreen.BmWidth ∧ (img.Pix.length : Int) =
      dwBmpSize o.bmpScreen.BmWidth o.bmpScreen.BmBitsPixel o.bmpScreen.BmHeight := by
    rcases MakeScreenshot_tr_of_pass ss o tr with ⟨_, e, he⟩ | h
    · rw [he] at hok; simp at hok
    · rw [h] at hok; exact capture_image ss o _ img hok
  rw [hw, hh, hb] at hcap
  exact ⟨hcap.1, hcap.2.trans (dwBmpSize_32 _ _ h0 h1 h2 h3)⟩

/-- C2 fails on the code: on a display of 16 bits per pixel, a capture of the unchanged
2 by 2 target, with GetObject reporting the session's width and height, succeeds and
returns an image of Stride 8 and rectangle 2 by 2 over a pixel buffer of 8 bytes, not
`2*2*4 = 16`: line 139 sizes the buffer from the bit depth while lines 168-175 take
4 bytes per pixel. -/
theorem MakeScreenshot_image_size_16bpp :
    capture16.getObject.r0 ≠ 0 ∧
    capture16.bmpScreen.BmWidth = displaySession.Width ∧
    capture16.bmpScreen.BmHeight = displaySession.Height ∧
    (displaySession.MakeScreenshot capture16 []).ret =
      Ret.value (some ⟨[3, 2, 1, 255, 7, 6, 5, 255], 8, ⟨0, 0, 2, 2⟩⟩) none ∧
    displaySession.Width * displaySession.Height * 4 = 16 ∧
    4 * displaySession.Width = 8 := by
  decide

/-- C6 fails on the code: when GetObject fails after select, blit and restore succeeded,
`MakeScreenshot` does not return the describe error; it goes on to allocate, lock and
extract with the zeroed metadata and returns an empty image and no error. -/
theorem MakeScreenshot_ignores_GetObject_failure :
    captureNoObject.getObject.r0 = 0 ∧
    displaySession.MakeScreenshot captureNoObject [] =
      ⟨Ret.value (some ⟨[], 0, ⟨0, 0, 0, 0⟩⟩) none,
        { displaySession with hOldBitmap := 21 },
        [⟨Call.SelectObject 12 13, 21⟩, ⟨Call.BitBlt 12 0 0 2 2 11 0 0 cSRCCPY, 1⟩,
         ⟨Call.SelectObject 12 21, 13⟩, ⟨Call.GetObject 13 32, 0⟩,
         ⟨Call.GlobalAlloc cGHND 0, 31⟩, ⟨Call.GlobalLock 31, 4096⟩,
         ⟨Call.GetDIBits 11 13 0 0 4096 cDIB_RGB_COLORS, 2⟩, ⟨Call.GlobalUnlock 31, 0⟩,
         ⟨Call.GetLastError, 0⟩, ⟨Call.GlobalFree 31, 0⟩]⟩ := by
  decide

theorem acquired_append (a b : Trace) : acquired (a ++ b) = acquired a ++ acquired b := by
  simp [acquired]

theorem released_append (a b : Trace) : released (a ++ b) = released a ++ released b := by
  simp [released]

/-- The enumeration of `funcFindWindow` neither acquires nor releases a handle. -/
theorem enumWindows_find_trace (l : List Surface) :
    ∀ (f : findWindowCallbackData) (tr : Trace),
      acquired (enumWindows findWindowCallback l (f, tr)).2.2 = acquired tr ∧
      released (enumWindows findWindowCallback l (f, tr)).2.2 = released tr := by
  induction l with
  | nil => intro f tr; simp [enumWindows]
  | cons w ws ih =>
    intro f tr
    unfold enumWindows
    by_cases h0 : w.text.r0 = 0
    · have := ih f (tr ++ [⟨Call.GetWindowText w.hwnd, w.text.r0⟩])
      simpa [findWindowCallback, funcGetWindowText, native, h0, acquired_append,
        released_append, acquired, released] using this
    · by_cases h1 : w.decoded = ""
      · have := ih f (tr ++ [⟨Call.GetWindowText w.hwnd, w.text.r0⟩])
        simpa [findWindowCallback, funcGetWindowText, native, h0, h1, acquired_append,
          released_append, acquired, released] using this
      · by_cases h2 : w.decoded = f.PWndTitle
        · simp [findWindowCallback, funcGetWindowText, native, h0, h1, h2, acquired_append,
            released_append, acquired, released]
          simp [← h2, h1, acquired_append, released_append, acquired, released]
        · have := ih f (tr ++ [⟨Call.GetWindowText w.hwnd, w.text.r0⟩])
          simpa [findWindowCallback, funcGetWindowText, native, h0, h1, h2, acquired_append,
            released_append, acquired, released] using this

theorem funcFindWindow_trace (title : String) (e : EnumOutcome) (tr : Trace) :
    acquired (funcFindWindow title e tr).2 = acquired tr ∧
    released (funcFindWindow title e tr).2 = released tr := by
  have h := enumWindows_find_trace e.surfaces { PWndTitle := title } tr
  unfold funcFindWindow callEnumWindows
  generalize enumWindows findWindowCallback e.surfaces ({ PWndTitle := title }, tr) = r at h
  obtain ⟨stopped, f, tr1⟩ := r
  simp only at h ⊢
  split_ifs <;> simp [acquired_append, released_append, h] <;> simp [acquired, released]

/-- C3. Rollback on a failed creation.  `CreateState` and `CreateStateWindow`, for every
combination of native-call outcomes in which some creation step fails, return no
session and an error, and the trace of the call then shows every handle it acquired
(reference context, off-screen context, bitmap) released exactly once, in reverse
order of acquisition, and no other handle released. -/
theorem create_failure_rolls_back (o : CreateOutcomes) (title : String)
    (ow : CreateWindowOutcomes) :
    ((o.getDC.r0 = 0 ∨ o.createCompatibleDC.r0 = 0 ∨ o.horzRes.r0 = 0 ∨ o.vertRes.r0 = 0 ∨
        o.createCompatibleBitmap.r0 = 0) →
      (∃ err, (CreateState o []).1 = (none, some err)) ∧
      released (CreateState o []).2 = (acquired (CreateState o []).2).reverse ∧
      (acquired (CreateState o []).2).Nodup) ∧
    (((funcFindWindow title ow.enumWindows []).1.2 ≠ none ∨ ow.getDC.r0 = 0 ∨
        ow.createCompatibleDC.r0 = 0 ∨ ow.getClientRect.r0 = 0 ∨
        ow.createCompatibleBitmap.r0 = 0) →
      (∃ err, (CreateStateWindow title ow []).1 = (none, some err)) ∧
      released (CreateStateWindow title ow []).2 =
        (acquired (CreateStateWindow title ow []).2).reverse ∧
      (acquired (CreateStateWindow title ow []).2).Nodup) := by
  constructor
  · intro hfail
    by_cases h1 : o.getDC.r0 = 0
    · simp [CreateState, ScreenshotState.Destroy, funcGetDC, native, acquired, released, h1]
    by_cases h2 : o.createCompatibleDC.r0 = 0
    · simp [CreateState, ScreenshotState.Destroy, funcGetDC, funcCreateCompatibleDC,
        funcReleaseDC, native, acquired, released, ite_pair_snd, h1, h2]
    by_cases h3 : o.horzRes.r0 = 0
    · simp [CreateState, ScreenshotState.Destroy, funcGetDC, funcCreateCompatibleDC,
        funcGetDeviceCaps, funcReleaseDC, funcDeleteDC, native, acquired, released,
        ite_pair_snd, h1, h2, h3]
    by_cases h4 : o.vertRes.r0 = 0
    · simp [CreateState, ScreenshotState.Destroy, funcGetDC, funcCreateCompatibleDC,
        funcGetDeviceCaps, funcReleaseDC, funcDeleteDC, native, acquired, released,
        ite_pair_snd, h1, h2, h3, h4]
    have h5 : o.createCompatibleBitmap.r0 = 0 := by tauto
    simp [CreateState, ScreenshotState.Destroy, funcGetDC, funcCreateCompatibleDC,
        funcGetDeviceCaps, funcCreateCompatibleBitmap, funcReleaseDC, funcDeleteDC, native,
        acquired, released, ite_pair_snd, h1, h2, h3, h4, h5]
  · intro hfail
    obtain ⟨ha, hr⟩ := funcFindWindow_trace title ow.enumWindows []
    unfold CreateStateWindow
    generalize funcFindWindow title ow.enumWindows [] = r at ha hr hfail
    obtain ⟨⟨h, err⟩, tr⟩ := r
    simp only at ha hr hfail ⊢
    have ha0 : acquired tr = [] := by simpa [acquired] using ha
    have hr0 : released tr = [] := by simpa [released] using hr
    cases err with
    | some e =>
      simp [ScreenshotState.Destroy, ha0, hr0]
    | none =>
      simp only [ne_eq, not_true_eq_false, false_or] at hfail
      by_cases h1 : ow.getDC.r0 = 0
      · simp [ScreenshotState.Destroy, funcGetDC, native, acquired_append, released_append,
          ha0, hr0, h1]
        simp [acquired, released]
      by_cases h2 : ow.createCompatibleDC.r0 = 0
      · simp [ScreenshotState.Destroy, funcGetDC, funcCreateCompatibleDC, funcReleaseDC, native,
          acquired_append, released_append, ite_pair_snd, ha0, hr0, h1, h2]
        simp [acquired, released, h1]
      by_cases h3 : ow.getClientRect.r0 = 0
      · simp [ScreenshotState.Destroy, funcGetDC, funcCreateCompatibleDC, funcGetClientRect,
          funcReleaseDC, funcDeleteDC, native, acquired_append,
          released_append, ite_pair_snd, ha0, hr0, h1, h2, h3]
        simp [acquired, released, h1, h2]
      have h5 : ow.createCompatibleBitmap.r0 = 0 := by tauto
      simp [ScreenshotState.Destroy, funcGetDC, funcCreateCompatibleDC, funcGetClientRect,
          funcCreateCompatibleBitmap, funcReleaseDC, funcDeleteDC, native, acquired_append,
          released_append, ite_pair_snd, ha0, hr0, h1, h2, h3, h5]
      simp [acquired, released, h1, h2]

/-- C4. `Destroy` is idempotent and never double-releases: from any session state the
first call issues exactly the release calls of the handles that are held (non-zero),
bitmap, then off-screen context, then reference context, each once; it leaves the
three handles cleared and the persistent buffer empty; a second call issues no native
call at all and leaves the state unchanged. -/
theorem Destroy_idempotent (ss : ScreenshotState) (o1 o2 : DestroyOutcomes) (tr tr2 : Trace) :
    calls (ss.Destroy o1 tr).2 = calls tr
        ++ (if ss.hBitmap ≠ 0 then [Call.DeleteObject ss.hBitmap] else [])
        ++ (if ss.hMemoryDC ≠ 0 then [Call.DeleteDC ss.hMemoryDC] else [])
        ++ (if ss.hDC ≠ 0 then [Call.ReleaseDC 0 ss.hDC] else []) ∧
      (ss.Destroy o1 tr).1.hBitmap = 0 ∧ (ss.Destroy o1 tr).1.hMemoryDC = 0 ∧
      (ss.Destroy o1 tr).1.hDC = 0 ∧ (ss.Destroy o1 tr).1.imageData = [] ∧
      (ss.Destroy o1 tr).1.Destroy o2 tr2 = ((ss.Destroy o1 tr).1, tr2) := by
  by_cases hb : ss.hBitmap = 0 <;> by_cases hm : ss.hMemoryDC = 0 <;>
    by_cases hd : ss.hDC = 0 <;>
    simp [ScreenshotState.Destroy, calls, funcDeleteObject, funcDeleteDC, funcReleaseDC, native,
      ite_pair_snd, hb, hm, hd]


/-- C5. Resize detection: in a window-mode session, when the client rectangle read at
the start of `MakeScreenshot` differs in width or height from the recorded dimensions,
the call returns the window-resized error and no image, the only native call it has
issued is that GetClientRect, and the session (buffer and every other field) is
unchanged. -/
theorem MakeScreenshot_resized (ss : ScreenshotState) (o : CaptureOutcomes) (tr : Trace)
    (hwnd : ss.hWnd ≠ 0) (hread : o.getClientRect.r0 ≠ 0)
    (hsize : ss.width ≠ toUintptr (wrap32 (o.rect.Right - o.rect.Left)) ∨
      ss.height ≠ toUintptr (wrap32 (o.rect.Bottom - o.rect.Top))) :
    ss.MakeScreenshot o tr =
      ⟨Ret.value none (some (GoError.msg "window has changed size")), ss,
        tr ++ [⟨Call.GetClientRect ss.hWnd, o.getClientRect.r0⟩]⟩ := by
  unfold ScreenshotState.MakeScreenshot MakeScreenshot.stale funcGetClientRect native
  simp only [ne_eq, hwnd, not_false_eq_true, if_true, hread, if_false]
  rw [if_pos hsize]

/-- C9. Restoring the selection: in every `MakeScreenshot` call whose first SelectObject
call succeeded, returning `old`, the SelectObject calls of the whole call are exactly
that one followed by `SelectObject(hMemoryDC, old)`, so the last select issued
re-selects the previously selected bitmap on every path; and when the blit fails, that
re-select is the last native call before the blit error is returned. -/
theorem MakeScreenshot_restores_selection (ss : ScreenshotState) (o : CaptureOutcomes)
    (e : Event) (hfirst : (selects (ss.MakeScreenshot o []).tr).head? = some e)
    (hok : e.r0 ≠ 0) :
    e.call = Call.SelectObject ss.hMemoryDC ss.hBitmap ∧
    selects (ss.MakeScreenshot o []).tr =
      [e, ⟨Call.SelectObject ss.hMemoryDC e.r0, o.restore.r0⟩] ∧
    (o.bitBlt.r0 = 0 →
      (ss.MakeScreenshot o []).ret = Ret.value none (some (GoError.msg "bitblt error")) ∧
      (ss.MakeScreenshot o []).tr.getLast? =
        some ⟨Call.SelectObject ss.hMemoryDC e.r0, o.restore.r0⟩) := by
  rcases MakeScreenshot_tr_of_pass ss o [] with ⟨h, _⟩ | h
  · rw [h, stale_tr] at hfirst
    by_cases hw : ss.hWnd = 0 <;> simp [selects, hw] at hfirst
  · rw [h] at hfirst ⊢
    rw [capture_tr, stale_tr] at hfirst ⊢
    by_cases h1 : o.select.r0 = 0
    · by_cases hw : ss.hWnd = 0 <;> simp [selects, hw, h1] at hfirst <;>
        (subst hfirst; exact absurd rfl hok)
    · have he : e = ⟨Call.SelectObject ss.hMemoryDC ss.hBitmap, o.select.r0⟩ := by
        by_cases hw : ss.hWnd = 0 <;> simp [selects, hw, h1] at hfirst <;> exact hfirst.symm
      subst he
      refine ⟨rfl, ?_, ?_⟩
      · by_cases hw : ss.hWnd = 0 <;> by_cases h2 : o.bitBlt.r0 = 0 <;>
          by_cases h3 : o.restore.r0 = 0 <;> by_cases h4 : o.globalAlloc.r0 = 0 <;>
          by_cases h5 : o.globalLock.r0 = 0 <;>
          simp [selects, hw, h1, h2, h3, h4, h5, List.filter_cons]
      · intro h2
        constructor
        · simp [MakeScreenshot.capture, funcSelectObject, funcBitBlt, native, h1, h2]
        · simp [h1, h2]

/-- C10. The temporary block: in every `MakeScreenshot` call whose GlobalAlloc returned
a block `h`, the call frees `h` exactly once, as its last native call, whatever lock
and extract did (and also when the conversion panics); and when GlobalLock on `h`
succeeded, the call unlocks `h` exactly once, right before that free. -/
theorem MakeScreenshot_frees_block (ss : ScreenshotState) (o : CaptureOutcomes)
    (size h : Nat) (halloc : ⟨Call.GlobalAlloc cGHND size, h⟩ ∈ (ss.MakeScreenshot o []).tr)
    (hok : h ≠ 0) :
    (calls (ss.MakeScreenshot o []).tr).count (Call.GlobalFree h) = 1 ∧
    (calls (ss.MakeScreenshot o []).tr).getLast? = some (Call.GlobalFree h) ∧
    (∀ p, p ≠ 0 → ⟨Call.GlobalLock h, p⟩ ∈ (ss.MakeScreenshot o []).tr →
      (calls (ss.MakeScreenshot o []).tr).count (Call.GlobalUnlock h) = 1 ∧
      ∃ pre, calls (ss.MakeScreenshot o []).tr =
          pre ++ [Call.GlobalUnlock h, Call.GetLastError, Call.GlobalFree h] ∧
        Call.GlobalUnlock h ∉ pre ∧ Call.GlobalFree h ∉ pre) := by
  rcases MakeScreenshot_tr_of_pass ss o [] with ⟨hs, _⟩ | hs
  · rw [hs, stale_tr] at halloc
    by_cases hw : ss.hWnd = 0 <;> simp [hw] at halloc
  · rw [hs]
    rw [hs] at halloc
    rw [capture_tr, stale_tr] at halloc ⊢
    by_cases h1 : o.select.r0 = 0
    · by_cases hw : ss.hWnd = 0 <;> simp [hw, h1] at halloc
    by_cases h2 : o.bitBlt.r0 = 0
    · by_cases hw : ss.hWnd = 0 <;> simp [hw, h1, h2] at halloc
    by_cases h3 : o.restore.r0 = 0
    · by_cases hw : ss.hWnd = 0 <;> simp [hw, h1, h2, h3] at halloc
    have hh : o.globalAlloc.r0 = h := by
      by_cases hw : ss.hWnd = 0 <;> by_cases h4 : o.globalAlloc.r0 = 0 <;>
        by_cases h5 : o.globalLock.r0 = 0 <;>
        simp [hw, h1, h2, h3, h4, h5] at halloc <;> first | exact halloc.2 | omega
    subst hh
    have h4 : ¬ o.globalAlloc.r0 = 0 := hok
    by_cases h5 : o.globalLock.r0 = 0
    · refine ⟨?_, ?_, ?_⟩
      · by_cases hw : ss.hWnd = 0 <;> simp [calls, hw, h1, h2, h3, h4, h5, List.count_cons]
      · by_cases hw : ss.hWnd = 0 <;> simp [calls, hw, h1, h2, h3, h4, h5]
      · intro p hp hmem
        exfalso
        by_cases hw : ss.hWnd = 0 <;> simp [hw, h1, h2, h3, h4, h5] at hmem <;> omega
    · refine ⟨?_, ?_, ?_⟩
      · by_cases hw : ss.hWnd = 0 <;> simp [calls, hw, h1, h2, h3, h4, h5, List.count_cons]
      · by_cases hw : ss.hWnd = 0 <;> simp [calls, hw, h1, h2, h3, h4, h5]
      · intro p hp hmem
        constructor
        · by_cases hw : ss.hWnd = 0 <;>
            simp [calls, hw, h1, h2, h3, h4, h5, List.count_cons]
        · refine ⟨calls ((if ss.hWnd ≠ 0 then
              [(⟨Call.GetClientRect ss.hWnd, o.getClientRect.r0⟩ : Event)] else []) ++
            [⟨Call.SelectObject ss.hMemoryDC ss.hBitmap, o.select.r0⟩,
             ⟨Call.BitBlt ss.hMemoryDC 0 0 ss.width ss.height ss.hDC 0 0 cSRCCPY, o.bitBlt.r0⟩,
             ⟨Call.SelectObject ss.hMemoryDC o.select.r0, o.restore.r0⟩,
             ⟨Call.GetObject ss.hBitmap 32, o.getObject.r0⟩,
             ⟨Call.GlobalAlloc cGHND (toUintptr (dwBmpSize o.bmpScreen.BmWidth
                  o.bmpScreen.BmBitsPixel o.bmpScreen.BmHeight)), o.globalAlloc.r0⟩,
             ⟨Call.GlobalLock o.globalAlloc.r0, o.globalLock.r0⟩,
             ⟨Call.GetDIBits ss.hDC ss.hBitmap 0 (toUintptr o.bmpScreen.BmHeight)
                      o.globalLock.r0 cDIB_RGB_COLORS, o.getDiBits.r0⟩]), ?_, ?_, ?_⟩ <;>
          by_cases hw : ss.hWnd = 0 <;> simp [calls, hw, h1, h2, h3, h4, h5]

/-- The visiting loop under the callback of `EnumWindowList`: it is never stopped, and
it appends the entries of the surfaces on which IsWindowVisible answered 1 and
GetWindowTextW answered a non-zero length and a non-empty text. -/
theorem enumWindows_list (l : List Surface) :
    ∀ (ww : List WindowStruct) (tr : Trace),
      (enumWindows enumWindowCallback l (ww, tr)).1 = false ∧
      (enumWindows enumWindowCallback l (ww, tr)).2.1 = ww ++
        (l.filter (fun s =>
          decide (s.visible.r0 = 1) && decide (s.text.r0 ≠ 0 ∧ s.decoded ≠ ""))).map
          (fun s => (⟨s.hwnd, s.decoded⟩ : WindowStruct)) := by
  induction l with
  | nil => intro ww tr; simp [enumWindows]
  | cons w ws ih =>
    intro ww tr
    unfold enumWindows
    by_cases h0 : w.text.r0 = 0
    · have := ih ww (tr ++ [⟨Call.GetWindowText w.hwnd, w.text.r0⟩])
      simpa [enumWindowCallback, funcGetWindowText, funcIsWindowVisible, native, h0]
        using this
    · by_cases h1 : w.decoded = ""
      · have := ih ww (tr ++ [⟨Call.GetWindowText w.hwnd, w.text.r0⟩])
        simpa [enumWindowCallback, funcGetWindowText, funcIsWindowVisible, native, h0, h1]
          using this
      · by_cases h2 : w.visible.r0 = 1
        · have := ih (ww ++ [⟨w.hwnd, w.decoded⟩])
            (tr ++ [⟨Call.GetWindowText w.hwnd, w.text.r0⟩] ++
              [⟨Call.IsWindowVisible w.hwnd, w.visible.r0⟩])
          simpa [enumWindowCallback, funcGetWindowText, funcIsWindowVisible, native, h0, h1,
            h2] using this
        · have := ih ww
            (tr ++ [⟨Call.GetWindowText w.hwnd, w.text.r0⟩] ++
              [⟨Call.IsWindowVisible w.hwnd, w.visible.r0⟩])
          simpa [enumWindowCallback, funcGetWindowText, funcIsWindowVisible, native, h0, h1,
            h2] using this

/-- C8. `EnumWindowList` returns exactly the (handle, title) entries of the visited
surfaces that are visible (IsWindowVisible answered TRUE, 1) and have a non-empty title
(GetWindowTextW answered a non-zero length and a non-empty text), one per such surface,
in visiting order: an empty title excludes a surface even when it is visible, and a
surface that is not visible is excluded even when it has a title. -/
theorem EnumWindowList_visible_titled (e : EnumOutcome) (tr : Trace) :
    (EnumWindowList e tr).1 =
      (e.surfaces.filter (fun s =>
        decide (s.visible.r0 = 1) && decide (s.text.r0 ≠ 0 ∧ s.decoded ≠ ""))).map
        (fun s => (⟨s.hwnd, s.decoded⟩ : WindowStruct)) := by
  have h := (enumWindows_list e.surfaces [] tr).2
  unfold EnumWindowList callEnumWindows
  generalize enumWindows enumWindowCallback e.surfaces ([], tr) = r at h
  obtain ⟨stopped, ww, tr1⟩ := r
  simpa using h

/-- C8 at a concrete input: of a visible surface with an empty title, visible surfaces
titled A and B and a hidden surface titled C, the listing is exactly A and B. -/
theorem EnumWindowList_visible_titled_witness :
    (EnumWindowList mixedSurfaces []).1 = [⟨2, "A"⟩, ⟨3, "B"⟩] :=
  (EnumWindowList_visible_titled mixedSurfaces []).trans (by decide)

/-- The visiting loop under the callback of `funcFindWindow`: it stops at the first
surface whose title is non-empty and equal to the wanted one, and records its handle. -/
theorem enumWindows_find (l : List Surface) :
    ∀ (f : findWindowCallbackData) (tr : Trace),
      (enumWindows findWindowCallback l (f, tr)).1 =
        (l.find? (fun s => decide (s.title ≠ "" ∧ s.title = f.PWndTitle))).isSome ∧
      (enumWindows findWindowCallback l (f, tr)).2.1 =
        match l.find? (fun s => decide (s.title ≠ "" ∧ s.title = f.PWndTitle)) with
        | some s => { f with PWndHandle := s.hwnd }
        | none => f := by
  induction l with
  | nil => intro f tr; simp [enumWindows]
  | cons w ws ih =>
    intro f tr
    unfold enumWindows
    by_cases h0 : w.text.r0 = 0
    · have := ih f (tr ++ [⟨Call.GetWindowText w.hwnd, w.text.r0⟩])
      simpa [findWindowCallback, funcGetWindowText, native, Surface.title, h0,
        List.find?_cons] using this
    · by_cases h1 : w.decoded = ""
      · have := ih f (tr ++ [⟨Call.GetWindowText w.hwnd, w.text.r0⟩])
        simpa [findWindowCallback, funcGetWindowText, native, Surface.title, h0, h1,
          List.find?_cons] using this
      · by_cases h2 : w.decoded = f.PWndTitle
        · simp [findWindowCallback, funcGetWindowText, native, Surface.title, h0, h1, h2,
            List.find?_cons]
          simp [← h2, h1]
        · have := ih f (tr ++ [⟨Call.GetWindowText w.hwnd, w.text.r0⟩])
          simpa [findWindowCallback, funcGetWindowText, native, Surface.title, h0, h1, h2,
            List.find?_cons] using this

/-- C7 (amended). `funcFindWindow` runs an enumeration of its own that looks at titles
only: it returns the handle of the first visited surface, visible or not, whose title is
non-empty and equal to the given title (an enumeration error if that handle is zero);
when no visited surface has that title it fails, with the not-found error if the
enumeration completed (non-zero result) and with the enumeration error otherwise. -/
theorem funcFindWindow_first_title (name : String) (e : EnumOutcome) (tr : Trace) :
    (funcFindWindow name e tr).1 =
      match e.surfaces.find? (fun s => decide (s.title ≠ "" ∧ s.title = name)) with
      | some s =>
        if s.hwnd = 0 then (0, some (GoError.msg "entryEnumWindows")) else (s.hwnd, none)
      | none =>
        if e.raw.r0 = 0 then (0, some (GoError.msg "entryEnumWindows"))
        else (0, some (GoError.msg ("window with title " ++ name ++ " not found"))) := by
  have h := enumWindows_find e.surfaces { PWndTitle := name } tr
  unfold funcFindWindow callEnumWindows
  generalize enumWindows findWindowCallback e.surfaces ({ PWndTitle := name }, tr) = r at h
  obtain ⟨stopped, f, tr1⟩ := r
  simp only at h
  obtain ⟨h1, h2⟩ := h
  cases hfind : e.surfaces.find? (fun s => decide (s.title ≠ "" ∧ s.title = name)) with
  | none =>
    rw [hfind] at h1 h2
    simp only [Option.isSome_none] at h1
    subst h1 h2
    by_cases hr : e.raw.r0 = 0 <;> simp [hr]
  | some s =>
    rw [hfind] at h1 h2
    simp only [Option.isSome_some] at h1
    subst h1 h2
    by_cases hs : s.hwnd = 0 <;> simp [hs]

/-- C7 fails as stated: with a hidden and a visible window both titled Calculator,
`funcFindWindow` returns the hidden one (handle 7), while the first entry of the listing
with that title is the visible one (handle 9); and with the hidden window alone it
returns handle 7 although the listing has no entry with that title. -/
theorem funcFindWindow_returns_hidden :
    (funcFindWindow "Calculator" twoCalculators []).1 = (7, none) ∧
    resolveInListing "Calculator" twoCalculators = some 9 ∧
    (funcFindWindow "Calculator" hiddenCalculator []).1 = (7, none) ∧
    resolveInListing "Calculator" hiddenCalculator = none := by
  decide

/-- C3 at concrete inputs: a display creation whose resolution query fails after both
contexts were acquired, and a window creation whose bitmap cannot be created. -/
theorem create_failure_rolls_back_witness :
    (createNoCaps.horzRes.r0 = 0 ∧
      (∃ err, (CreateState createNoCaps []).1 = (none, some err)) ∧
      released (CreateState createNoCaps []).2 =
        (acquired (CreateState createNoCaps []).2).reverse ∧
      (acquired (CreateState createNoCaps []).2).Nodup) ∧
    (createWindowNoBitmap.createCompatibleBitmap.r0 = 0 ∧
      (∃ err, (CreateStateWindow "Calculator" createWindowNoBitmap []).1 = (none, some err)) ∧
      released (CreateStateWindow "Calculator" createWindowNoBitmap []).2 =
        (acquired (CreateStateWindow "Calculator" createWindowNoBitmap []).2).reverse ∧
      (acquired (CreateStateWindow "Calculator" createWindowNoBitmap []).2).Nodup) :=
  ⟨⟨by decide,
      (create_failure_rolls_back createNoCaps "Calculator" createWindowNoBitmap).1
        (Or.inr (Or.inr (Or.inl (by decide))))⟩,
    ⟨by decide,
      (create_failure_rolls_back createNoCaps "Calculator" createWindowNoBitmap).2
        (Or.inr (Or.inr (Or.inr (Or.inr (by decide)))))⟩⟩

/-- C5 at a concrete input: the 2 by 2 window session finds a 3 by 2 client rectangle. -/
theorem MakeScreenshot_resized_witness :
    (windowSession.hWnd ≠ 0 ∧ captureResized.getClientRect.r0 ≠ 0 ∧
      windowSession.width ≠
        toUintptr (wrap32 (captureResized.rect.Right - captureResized.rect.Left))) ∧
    windowSession.MakeScreenshot captureResized [] =
      ⟨Ret.value none (some (GoError.msg "window has changed size")), windowSession,
        [⟨Call.GetClientRect 7, 1⟩]⟩ :=
  ⟨⟨by decide, by decide, by decide⟩,
    MakeScreenshot_resized windowSession captureResized [] (by decide) (by decide)
      (Or.inl (by decide))⟩

/-- C9 at a concrete input: the select returns 21, the blit fails. -/
theorem MakeScreenshot_restores_selection_witness :
    (selects (windowSession.MakeScreenshot captureNoBlit []).tr).head? =
        some ⟨Call.SelectObject 12 13, 21⟩ ∧
    selects (windowSession.MakeScreenshot captureNoBlit []).tr =
      [⟨Call.SelectObject 12 13, 21⟩, ⟨Call.SelectObject 12 21, 13⟩] ∧
    (windowSession.MakeScreenshot captureNoBlit []).ret =
      Ret.value none (some (GoError.msg "bitblt error")) :=
  ⟨by decide,
    (MakeScreenshot_restores_selection windowSession captureNoBlit
      ⟨Call.SelectObject 12 13, 21⟩ (by decide) (by decide)).2.1,
    ((MakeScreenshot_restores_selection windowSession captureNoBlit
      ⟨Call.SelectObject 12 13, 21⟩ (by decide) (by decide)).2.2 (by decide)).1⟩

/-- C10 at a concrete input: the block 31 is locked, the extraction fails. -/
theorem MakeScreenshot_frees_block_witness :
    (⟨Call.GlobalAlloc cGHND 16, 31⟩ : Event) ∈
        (displaySession.MakeScreenshot captureNoBits []).tr ∧
    (displaySession.MakeScreenshot captureNoBits []).ret =
      Ret.value none (some (GoError.msg "get dibits error")) ∧
    (calls (displaySession.MakeScreenshot captureNoBits []).tr).count (Call.GlobalFree 31) = 1 ∧
    (calls (displaySession.MakeScreenshot captureNoBits []).tr).count (Call.GlobalUnlock 31)
      = 1 :=
  ⟨by decide, by decide,
    (MakeScreenshot_frees_block displaySession captureNoBits 16 31 (by decide) (by decide)).1,
    ((MakeScreenshot_frees_block displaySession captureNoBits 16 31 (by decide)
      (by decide)).2.2 4096 (by decide) (by decide)).1⟩

end Screenshot
